import Mathlib

/-!
Shallow embedding of the `VideoWorker` core of `src/main.py`
(rtspviewer-android): the recording lifecycle (`start_recording`,
`stop_recording`), the snapshot call (`save_snapshot`), the worker stop
call (`stop`), the per-frame recording/materialisation/write logic of the
decode loop, and the reconnect loop's status/backoff behaviour
(`VideoWorker._run`).

Machine integers do not overflow here (Python ints are unbounded), so
timestamps are `Int` and counters are `Nat`.  The external media library
(PyAV) is modelled abstractly but executably: an encoder that may buffer
up to `delay` frames internally, a container that accumulates muxed
packets, and closing a container *without* flushing the encoder discards
whatever is still buffered in the encoder (the PyAV contract the source
and its comments rely on).
-/

namespace RtspViewer

/-- A decoded video frame.  Only the presentation timestamp matters to the
logic modelled here: `frame.pts` in the source, which may be `None`. -/
structure Frame where
  pts : Option Int
deriving DecidableEq, Repr

/-- Observable events emitted by the worker, corresponding to the Qt
signals `status`, `recording_status`, `frame_ready` and `stopped` of
`VideoWorker`, plus an explicit record of every `time.sleep` call (in
milliseconds) made by the reconnect loop. -/
inductive Event where
  | status (msg : String)
  | recordingStatus (active : Bool)
  | frameReady (f : Frame)
  | stoppedSig
  | sleep (ms : Nat)
deriving DecidableEq, Repr

/-- Model of the video encoder behind `self._output_stream`.  A real
encoder may hold up to `delay` frames in an internal buffer (B-frame /
lookahead delay); `encode` with a frame pushes it into the buffer and
returns the packets ready so far, and `flush` (the source's
`self._output_stream.encode()` with no argument) drains everything still
buffered.  A packet is identified by the presentation timestamp the
worker assigned to the frame it encodes. -/
structure Encoder where
  delay : Nat
  buffered : List Int
deriving DecidableEq, Repr

/-- Feed one frame (identified by its assigned pts) to the encoder; the
returned list is the packets the encoder produces for this call. -/
def Encoder.encode (e : Encoder) (pts : Int) : Encoder × List Int :=
  let buf := e.buffered ++ [pts]
  if e.delay < buf.length then
    match buf with
    | [] => ({ e with buffered := [] }, [])
    | p :: rest => ({ e with buffered := rest }, [p])
  else
    ({ e with buffered := buf }, [])

/-- Encoding with no new frame: drain every buffered packet. -/
def Encoder.flush (e : Encoder) : Encoder × List Int :=
  ({ e with buffered := [] }, e.buffered)

/-- Model of the output container behind `self._output_container`: the
list of packets muxed into it so far.  Closing the container freezes this
list as the persisted artifact; packets still buffered inside the encoder
are not part of it. -/
structure Container where
  muxed : List Int
deriving DecidableEq, Repr

/-- The mutable state of one `VideoWorker` instance (its `__init__`
fields).  `thread` models `self._thread`: `none` when absent, `some b`
for a thread object that is alive iff `b`.  `stopFlag` is the
`threading.Event` `self._stop`. -/
structure WorkerState where
  thread : Option Bool
  stopFlag : Bool
  lastQImage : Option Frame
  recording : Bool
  outputContainer : Option Container
  outputStream : Option Encoder
  recordingPath : Option String
  frameCount : Nat
  recordingStartPts : Option Int
deriving DecidableEq, Repr

/-- The state `VideoWorker.__init__` sets up. -/
def idleWorker : WorkerState :=
  { thread := none, stopFlag := false, lastQImage := none, recording := false
    outputContainer := none, outputStream := none, recordingPath := none
    frameCount := 0, recordingStartPts := none }

/-- `VideoWorker.start_recording(path)` (src/main.py lines 84-92): under
the lock, if already recording return `False` with no other effect;
otherwise store the path, set the flag, emit `recording_status(True)` and
return `True`. -/
def startRecording (s : WorkerState) (path : String) :
    Bool × WorkerState × List Event :=
  if s.recording then
    (false, s, [])
  else
    (true,
     { s with recordingPath := some path, recording := true },
     [Event.recordingStatus true])

/-- `VideoWorker.stop_recording()` (src/main.py lines 94-107): under the
lock, if not recording return; otherwise clear the flag, and if an output
container exists close it (dropping `outputStream` too) and emit
`recording_status(False)`.  The third component is the persisted artifact
produced when a container is closed here: exactly the packets that had
been muxed — the source performs no encoder flush on this path, so the
encoder's buffered packets are not part of it. -/
def stopRecording (s : WorkerState) :
    WorkerState × List Event × Option (List Int) :=
  if ¬ s.recording then
    (s, [], none)
  else
    let s1 := { s with recording := false }
    match s1.outputContainer with
    | some c =>
        ({ s1 with outputContainer := none, outputStream := none },
         [Event.recordingStatus false], some c.muxed)
    | none => (s1, [Event.recordingStatus false], none)

/-- `VideoWorker.stop()` (src/main.py lines 73-77): if a thread object
exists and is alive, set the stop flag and join it; in every case the
thread field is cleared.  `stop()` itself emits nothing (the `stopped`
signal is emitted by the worker thread's own `_run` exit path). -/
def stopWorker (s : WorkerState) : WorkerState × List Event :=
  if s.thread = some true then
    ({ s with stopFlag := true, thread := none }, [])
  else
    ({ s with thread := none }, [])

/-- `VideoWorker.save_snapshot(path)` (src/main.py lines 79-82): returns
`False` when no frame has ever been decoded (`self._last_qimage is
None`), otherwise the result of `QImage.save(path)`, modelled by the
environment flag `writeOk`. -/
def saveSnapshot (s : WorkerState) (writeOk : Bool) : Bool :=
  match s.lastQImage with
  | none => false
  | some _ => writeOk

/-- Outcome of one recording materialisation attempt (the `try` block at
src/main.py lines 145-155): everything succeeds; `av.open` itself raises
(so `self._output_container` is never assigned); or `av.open` succeeds
and a later step (`add_stream` / stream configuration) raises, after
`self._output_container` has already been assigned the open container. -/
inductive MatOutcome where
  | ok
  | openFails
  | addStreamFails
deriving DecidableEq, Repr

/-- The recording-materialisation step of the decode loop (src/main.py
lines 144-159), for the current frame `f`.  Guard as in the source:
`self._recording and self._output_container is None and
self._recording_path`.  On success a fresh container and an encoder of
delay `d` are installed, `self._recording_start_pts` is set to this
frame's pts and `self._frame_count` reset to 0.  On failure the `except`
branch emits the init-failure status (the source interpolates the
exception text), clears the recording flag and emits
`recording_status(False)` — and does nothing else: in the
`addStreamFails` case the already-assigned open container stays in
`self._output_container`, unclosed. -/
def materializeStep (d : Nat) (s : WorkerState) (f : Frame)
    (out : MatOutcome) : WorkerState × List Event :=
  if s.recording ∧ s.outputContainer = none ∧ s.recordingPath.isSome then
    match out with
    | MatOutcome.ok =>
        ({ s with outputContainer := some { muxed := [] }
                  outputStream := some { delay := d, buffered := [] }
                  recordingStartPts := f.pts
                  frameCount := 0 }, [])
    | MatOutcome.openFails =>
        ({ s with recording := false },
         [Event.status "Recording init failed",
          Event.recordingStatus false])
    | MatOutcome.addStreamFails =>
        ({ s with outputContainer := some { muxed := [] }
                  recording := false },
         [Event.status "Recording init failed",
          Event.recordingStatus false])
  else
    (s, [])

/-- The per-frame recording write step (src/main.py lines 162-179), run
when `self._recording and self._output_container and
self._output_stream`.  The output pts is `frame.pts -
self._recording_start_pts` when both are present, else the frame counter;
the counter is incremented, the frame is encoded and every produced
packet muxed.  The boolean records whether the frame was offered to the
recording session at all (i.e. whether the guard held). -/
def writeStep (s : WorkerState) (f : Frame) : WorkerState × Bool :=
  if s.recording then
    match s.outputContainer, s.outputStream with
    | some c, some e =>
        let pts : Int :=
          match f.pts, s.recordingStartPts with
          | some p, some q => p - q
          | _, _ => (s.frameCount : Int)
        let r := e.encode pts
        ({ s with frameCount := s.frameCount + 1
                  outputStream := some r.1
                  outputContainer := some { muxed := c.muxed ++ r.2 } },
         true)
    | _, _ => (s, false)
  else
    (s, false)

/-- One pass of the decode loop body (src/main.py lines 138-189) over a
list of decoded frames, with materialisation outcome `mo` whenever a
materialisation is attempted and encoder delay `d`.  Returns the final
state, the frames offered to the recording session, and the frames
delivered to the frame sink (every frame is converted, stored as
`last_frame` and delivered, lines 184-189). -/
def decodeFrames (d : Nat) (mo : MatOutcome) :
    WorkerState → List Frame → WorkerState × List Frame × List Frame
  | s, [] => (s, [], [])
  | s, f :: fs =>
      let s1 := (materializeStep d s f mo).1
      let w := writeStep s1 f
      let s3 := { w.1 with lastQImage := some f }
      let r := decodeFrames d mo s3 fs
      (r.1, (if w.2 then [f] else []) ++ r.2.1, f :: r.2.2)

/-- The sequence of output timestamps the write step assigns to a
recording session's frames (src/main.py lines 154, 171-176): the first
parameter is `self._recording_start_pts` (the first frame's pts, fixed at
materialisation), the second is `self._frame_count`. -/
def storedPts (startPts : Option Int) : Nat → List (Option Int) → List Int
  | _, [] => []
  | k, p :: ps =>
      (match p, startPts with
       | some v, some q => v - q
       | _, _ => (k : Int)) :: storedPts startPts (k + 1) ps

/-- Output timestamps of a whole recording session fed the given source
timestamps: materialisation happens on the first frame (which is also the
first frame written), so the rebase timestamp is that frame's pts and the
counter starts at 0. -/
def sessionStoredPts : List (Option Int) → List Int
  | [] => []
  | p :: ps => storedPts p 0 (p :: ps)

/-- Outcome of one connection attempt of the reconnect loop in
`VideoWorker._run` (src/main.py lines 121-213): the opened source has no
video-typed stream; opening or decoding raises a transient error with
message `msg`; or the source plays and then ends. -/
inductive Outcome where
  | noVideo
  | transient (msg : String)
  | streamEnd
deriving DecidableEq, Repr

/-- The reconnect loop of `VideoWorker._run`, driven by a script of
connection-attempt outcomes; the script ends when the controller's stop
flag is observed at the loop head.  Each attempt announces "Connecting…";
a source with no video stream announces "No video stream found" and
breaks out of the loop (lines 125-128); a stream end announces the
reconnect status and sleeps 2 seconds (lines 202-203); a transient error
announces the retry status and sleeps 2 seconds (lines 204-213). -/
def connectLoop : List Outcome → List Event
  | [] => []
  | o :: rest =>
      Event.status "Connecting…" ::
      match o with
      | Outcome.noVideo => [Event.status "No video stream found"]
      | Outcome.streamEnd =>
          Event.status "Playing" ::
          Event.status "Stream ended, reconnecting in 2s…" ::
          Event.sleep 2000 :: connectLoop rest
      | Outcome.transient m =>
          Event.status (m ++ "; retrying in 2s…") ::
          Event.sleep 2000 :: connectLoop rest

/-- A full `_run` of a worker that is not recording: the reconnect loop
followed by the exit cleanup (`self.stop_recording()`, a no-op here, then
`self.stopped.emit()`, lines 215-217). -/
def runWorker (script : List Outcome) : List Event :=
  connectLoop script ++ [Event.stoppedSig]

/-- True when an event is the `stopped` signal. -/
def isStoppedSig : Event → Bool
  | Event.stoppedSig => true
  | _ => false

/-- True when an event is a retry announcement. -/
def isRetryStatus : Event → Bool
  | Event.status m => m.endsWith "; retrying in 2s…"
  | _ => false

/-- The durations of the sleep calls in a trace, in order. -/
def sleepDurations (evs : List Event) : List Nat :=
  evs.filterMap fun e =>
    match e with
    | Event.sleep d => some d
    | _ => none

/-- True when every sleep in the trace is shorter than one second. -/
def subSecondSleeps (evs : List Event) : Bool :=
  evs.all fun e =>
    match e with
    | Event.sleep d => decide (d < 1000)
    | _ => true

/-- How many backoff sleeps the loop performs on a given script: one per
attempt that ends in a stream end or transient error, none once a
structural no-video-stream outcome breaks the loop. -/
def backoffCount : List Outcome → Nat
  | [] => 0
  | Outcome.noVideo :: _ => 0
  | _ :: rest => backoffCount rest + 1

/-- The recording resources are in a coherent state: either fully
materialised (container and encoder stream both present) or fully absent. -/
def resourceAtomic (s : WorkerState) : Bool :=
  (s.outputContainer.isSome && s.outputStream.isSome) ||
  (s.outputContainer.isNone && s.outputStream.isNone)

/-- A worker state with an active, fully materialised recording session
(used as a concrete instantiation point). -/
def activeWorker : WorkerState :=
  { idleWorker with
      recording := true
      recordingPath := some "out.mkv"
      outputContainer := some { muxed := [] }
      outputStream := some { delay := 1, buffered := [] } }

/-- C6: calling `start_recording` while a recording is already active is
rejected with `False`, changes no worker state, creates no second output
resource and emits no `recording_status` notification — both for an
arbitrary already-recording state and for a second call right after a
successful first call. -/
theorem start_recording_second_call_rejected :
    (∀ (s : WorkerState) (q : String), s.recording = true →
        startRecording s q = (false, s, [])) ∧
    (∀ (s : WorkerState) (p q : String), s.recording = false →
        startRecording ((startRecording s p).2.1) q =
          (false, (startRecording s p).2.1, [])) := by
  constructor
  · intro s q h
    simp [startRecording, h]
  · intro s p q h
    simp [startRecording, h]

/-- Witness for C6 at a concrete already-recording state. -/
theorem start_recording_second_call_rejected_witness :
    startRecording activeWorker "b.mkv" = (false, activeWorker, []) :=
  start_recording_second_call_rejected.1 activeWorker "b.mkv" rfl

/-- C7: calling `stop_recording` when no recording is active returns
without changing any worker state, closes nothing, and emits no
`recording_status` notification. -/
theorem stop_recording_inactive_noop (s : WorkerState)
    (h : s.recording = false) : stopRecording s = (s, [], none) := by
  simp [stopRecording, h]

/-- Witness for C7 at the freshly initialised worker. -/
theorem stop_recording_inactive_noop_witness :
    stopRecording idleWorker = (idleWorker, [], none) :=
  stop_recording_inactive_noop idleWorker rfl

/-- C9: `save_snapshot` succeeds exactly when at least one frame has been
decoded and the image write succeeds; it fails when no frame was ever
decoded (NoFrame) and when the write fails (WriteError).  It is a pure
read of the cached last frame and touches no other worker state. -/
theorem save_snapshot_result (s : WorkerState) (w : Bool) :
    (saveSnapshot s w = true ↔ (s.lastQImage.isSome = true ∧ w = true)) ∧
    (s.lastQImage = none → saveSnapshot s w = false) ∧
    (w = false → saveSnapshot s w = false) := by
  refine ⟨?_, ?_, ?_⟩
  · cases h : s.lastQImage <;> simp [saveSnapshot, h]
  · intro h; simp [saveSnapshot, h]
  · intro h; cases hl : s.lastQImage <;> simp [saveSnapshot, h, hl]

/-- Witness for C9: before any frame, a snapshot fails even when the file
would be writable. -/
theorem save_snapshot_result_witness :
    saveSnapshot idleWorker true = false :=
  (save_snapshot_result idleWorker true).2.1 rfl

/-- C10: calling `stop()` on a worker whose thread is not running (never
started, or already exited) does not set the stop flag, emits nothing,
and leaves the recording flag, output resources and last frame unchanged;
the only effect is clearing the internal thread field. -/
theorem stop_dead_thread_noop (s : WorkerState)
    (h : ¬ s.thread = some true) :
    stopWorker s = ({ s with thread := none }, []) ∧
    (stopWorker s).1.stopFlag = s.stopFlag ∧
    (stopWorker s).1.recording = s.recording ∧
    (stopWorker s).1.outputContainer = s.outputContainer ∧
    (stopWorker s).1.outputStream = s.outputStream ∧
    (stopWorker s).1.lastQImage = s.lastQImage ∧
    (stopWorker s).2 = [] := by
  simp [stopWorker, h]

/-- Witness for C10 at the freshly initialised worker (no thread). -/
theorem stop_dead_thread_noop_witness :
    (stopWorker idleWorker).1.recording = idleWorker.recording :=
  (stop_dead_thread_noop idleWorker (by decide)).2.2.1

/-- C1 (code bug in `stop_recording`, src/main.py lines 94-107): the
source closes the output container without first flushing the encoder
(the encoder flush exists only on the worker-exit path, lines 191-198,
which a direct `stop_recording` call never takes — it even nulls the
stream so the later flush guard fails).  Concretely: start a recording on
a fresh worker, decode one frame through the loop body with an encoder of
delay 1 — the frame is successfully encoded (`frameCount = 1`) but its
packet is still buffered in the encoder — then call `stop_recording`: the
persisted artifact contains 0 muxed packets, fewer than the 1
successfully encoded frame, while a flush of the still-held encoder would
have produced exactly the dropped packet. -/
theorem stop_recording_close_without_flush :
    (stopRecording ((decodeFrames 1 MatOutcome.ok
        ((startRecording idleWorker "out.mkv").2.1)
        [{ pts := some 100 }]).1)).2.2 = some [] ∧
    ((decodeFrames 1 MatOutcome.ok
        ((startRecording idleWorker "out.mkv").2.1)
        [{ pts := some 100 }]).1).frameCount = 1 ∧
    ((decodeFrames 1 MatOutcome.ok
        ((startRecording idleWorker "out.mkv").2.1)
        [{ pts := some 100 }]).1).outputStream =
      some { delay := 1, buffered := [0] } := by
  refine ⟨rfl, rfl, rfl⟩

/-- C3 (code bug in the materialisation `except` branch, src/main.py
lines 156-159): when `av.open` succeeds but `add_stream` (or the stream
configuration) raises, the recording flag is cleared and the failure
reported — but `self._output_container` keeps the already-opened
container, which is never closed and never reset to `None`, so a
half-open output resource remains (container present, stream absent),
violating resource atomicity. -/
theorem materialize_failure_leaves_half_open :
    ((materializeStep 1 ((startRecording idleWorker "out.mkv").2.1)
        { pts := some 0 } MatOutcome.addStreamFails).1).recording = false ∧
    ((materializeStep 1 ((startRecording idleWorker "out.mkv").2.1)
        { pts := some 0 } MatOutcome.addStreamFails).1).outputContainer =
      some { muxed := [] } ∧
    ((materializeStep 1 ((startRecording idleWorker "out.mkv").2.1)
        { pts := some 0 } MatOutcome.addStreamFails).1).outputStream =
      none ∧
    (materializeStep 1 ((startRecording idleWorker "out.mkv").2.1)
        { pts := some 0 } MatOutcome.addStreamFails).2 =
      [Event.status "Recording init failed",
       Event.recordingStatus false] ∧
    resourceAtomic ((materializeStep 1
        ((startRecording idleWorker "out.mkv").2.1)
        { pts := some 0 } MatOutcome.addStreamFails).1) = false := by
  refine ⟨rfl, rfl, rfl, rfl, rfl⟩

lemma storedPts_map_some (q : Int) :
    ∀ (l : List Int) (k : Nat),
      storedPts (some q) k (l.map some) = l.map (fun p => p - q) := by
  intro l
  induction l with
  | nil => intro k; rfl
  | cons p ps ih => intro k; simp [storedPts, ih]

lemma storedPts_replicate_none (p0 : Option Int) :
    ∀ (n k : Nat),
      storedPts p0 k (List.replicate n none) =
        (List.range' k n).map (fun j => (j : Int)) := by
  intro n
  induction n with
  | zero => intro k; rfl
  | succ m ih =>
      intro k
      cases p0 <;>
        simp [List.replicate_succ, storedPts, List.range'_succ, ih]

lemma storedPts_none_mem (p0 : Option Int) :
    ∀ (n k : Nat) (x : Int),
      x ∈ storedPts p0 k (List.replicate n none) → (k : Int) ≤ x := by
  intro n
  induction n with
  | zero => intro k x hx; cases p0 <;> simp [storedPts] at hx
  | succ m ih =>
      intro k x hx
      cases p0 <;> simp [List.replicate_succ, storedPts] at hx <;>
        rcases hx with h | h
      · exact h.ge
      · calc (k : Int) ≤ ((k + 1 : Nat) : Int) := by exact_mod_cast Nat.le_succ k
          _ ≤ x := ih (k + 1) x h
      · exact h.ge
      · calc (k : Int) ≤ ((k + 1 : Nat) : Int) := by exact_mod_cast Nat.le_succ k
          _ ≤ x := ih (k + 1) x h

lemma storedPts_none_pairwise (p0 : Option Int) :
    ∀ (n k : Nat),
      List.Pairwise (· ≤ ·) (storedPts p0 k (List.replicate n none)) := by
  intro n
  induction n with
  | zero => intro k; cases p0 <;> exact List.Pairwise.nil
  | succ m ih =>
      intro k
      have hmem : ∀ x ∈ storedPts p0 (k + 1) (List.replicate m none),
          (k : Int) ≤ x := by
        intro x hx
        calc (k : Int) ≤ ((k + 1 : Nat) : Int) := by exact_mod_cast Nat.le_succ k
          _ ≤ x := storedPts_none_mem p0 m (k + 1) x hx
      cases p0 <;> simp only [List.replicate_succ, storedPts] <;>
        exact List.Pairwise.cons hmem (ih (k + 1))

lemma sessionStoredPts_replicate_none (n : Nat) :
    sessionStoredPts (List.replicate n none) =
      (List.range n).map (fun i => (i : Int)) := by
  cases n with
  | zero => rfl
  | succ m =>
      rw [List.range_eq_range']
      simpa [List.replicate_succ, sessionStoredPts]
        using storedPts_replicate_none none (m + 1) 0

/-- C2 (amended): for a recording session fed N frames, the stored output
timestamp of frame i equals `pts(frame_i) - pts(frame_0)` when source
timestamps are present, and equals the frame counter value i when they
are absent; the stored timestamps are monotonically non-decreasing in the
absent case, and in the present case whenever the source timestamps are
themselves non-decreasing. -/
theorem recording_pts_rebase_and_monotone :
    (∀ (p0 : Int) (ps : List Int),
        sessionStoredPts ((p0 :: ps).map some) =
          (p0 :: ps).map (fun p => p - p0)) ∧
    (∀ n : Nat,
        sessionStoredPts (List.replicate n none) =
          (List.range n).map (fun i => (i : Int))) ∧
    (∀ (p0 : Int) (ps : List Int),
        List.Pairwise (· ≤ ·) (p0 :: ps) →
        List.Pairwise (· ≤ ·) (sessionStoredPts ((p0 :: ps).map some))) ∧
    (∀ n : Nat,
        List.Pairwise (· ≤ ·) (sessionStoredPts (List.replicate n none))) := by
  have part1 : ∀ (p0 : Int) (ps : List Int),
      sessionStoredPts ((p0 :: ps).map some) =
        (p0 :: ps).map (fun p => p - p0) := by
    intro p0 ps
    have h := storedPts_map_some p0 (p0 :: ps) 0
    simpa [sessionStoredPts] using h
  refine ⟨part1, sessionStoredPts_replicate_none, ?_, ?_⟩
  · intro p0 ps hmono
    rw [part1 p0 ps]
    exact hmono.map _ (fun a b hab => sub_le_sub_right hab p0)
  · intro n
    cases n with
    | zero => exact List.Pairwise.nil
    | succ m =>
        have h : sessionStoredPts (List.replicate (m + 1) none) =
            storedPts none 0 (List.replicate (m + 1) none) := by
          simp [List.replicate_succ, sessionStoredPts]
        rw [h]
        exact storedPts_none_pairwise none (m + 1) 0

/-- Witness for C2's amended theorem at a concrete non-decreasing
timestamped sequence. -/
theorem recording_pts_rebase_and_monotone_witness :
    List.Pairwise (· ≤ ·)
      (sessionStoredPts ([(100 : Int), 150].map some)) :=
  recording_pts_rebase_and_monotone.2.2.1 100 [150] (by decide)

/-- C2 counterexample: two frames whose source timestamps are present but
decreasing (pts 100 then 50) are stored as [0, -50], which is not
monotonically non-decreasing — refuting the unconditional monotonicity in
the claim. -/
theorem recording_pts_not_always_monotone :
    sessionStoredPts [some 100, some 50] = [0, -50] ∧
    ¬ List.Pairwise (· ≤ ·) (sessionStoredPts [some 100, some 50]) := by
  refine ⟨rfl, ?_⟩
  decide

lemma sleepDurations_connectLoop :
    ∀ script : List Outcome,
      sleepDurations (connectLoop script) =
        List.replicate (backoffCount script) 2000 := by
  intro script
  induction script with
  | nil => rfl
  | cons o rest ih =>
      cases o with
      | noVideo => rfl
      | transient m =>
          simp [connectLoop, sleepDurations, backoffCount,
            List.replicate_succ] at ih ⊢
          exact ih
      | streamEnd =>
          simp [connectLoop, sleepDurations, backoffCount,
            List.replicate_succ] at ih ⊢
          exact ih

/-- C4 counterexample: in the trace of a run that hits one transient
error, the backoff is a single `time.sleep(2)` — a 2000 ms span, so the
trace's sleeps are not all sub-second, refuting the claim that the
backoff is slept in sub-second cancel-checking increments. -/
theorem backoff_not_sub_second :
    subSecondSleeps (runWorker [Outcome.transient "Error: x"]) = false := by
  rfl

/-- C4 (amended): every backoff after a stream end or transient error is
one uninterruptible sleep of exactly 2000 ms (one sleep call per backoff,
never sub-second increments); the cancel signal is re-checked only at the
loop head after the full sleep, which still bounds the reaction to a
`stop()` observed mid-backoff by about 2 seconds. -/
theorem backoff_single_two_second_sleep (script : List Outcome) :
    sleepDurations (runWorker script) =
      List.replicate (backoffCount script) 2000 := by
  have h := sleepDurations_connectLoop script
  simpa [runWorker, sleepDurations, List.filterMap_append] using h

lemma connectLoop_no_stoppedSig :
    ∀ script : List Outcome,
      (connectLoop script).countP isStoppedSig = 0 := by
  intro script
  induction script with
  | nil => rfl
  | cons o rest ih =>
      cases o with
      | noVideo => rfl
      | transient m => simp [connectLoop, List.countP_cons, isStoppedSig, ih]
      | streamEnd => simp [connectLoop, List.countP_cons, isStoppedSig, ih]

/-- C5: a connection attempt whose source has no video-typed stream
announces "No video stream found" and exits the loop with no retry — the
whole remaining script is ignored, no retry status is ever emitted, and
exactly one `stopped` signal follows; every run emits exactly one
`stopped`; and a transient error instead announces a retrying status and
the loop continues with the rest of the script. -/
theorem no_video_stream_stops_loop :
    (∀ rest : List Outcome,
        runWorker (Outcome.noVideo :: rest) =
          [Event.status "Connecting…",
           Event.status "No video stream found", Event.stoppedSig]) ∧
    (∀ script : List Outcome,
        (runWorker script).countP isStoppedSig = 1) ∧
    (∀ rest : List Outcome,
        (runWorker (Outcome.noVideo :: rest)).countP isRetryStatus = 0) ∧
    (∀ (m : String) (rest : List Outcome),
        runWorker (Outcome.transient m :: rest) =
          Event.status "Connecting…" ::
          Event.status (m ++ "; retrying in 2s…") ::
          Event.sleep 2000 :: runWorker rest) := by
  have h1 : ∀ rest : List Outcome,
      runWorker (Outcome.noVideo :: rest) =
        [Event.status "Connecting…",
         Event.status "No video stream found", Event.stoppedSig] := by
    intro rest; rfl
  refine ⟨h1, ?_, ?_, ?_⟩
  · intro script
    simp [runWorker, List.countP_append, connectLoop_no_stoppedSig,
      isStoppedSig]
  · intro rest
    rw [h1 rest]
    decide
  · intro m rest
    rfl

lemma decodeFrames_offers_sublist (d : Nat) (mo : MatOutcome) :
    ∀ (frames : List Frame) (s : WorkerState),
      List.Sublist (decodeFrames d mo s frames).2.1
        (decodeFrames d mo s frames).2.2 := by
  intro frames
  induction frames with
  | nil => intro s; simp [decodeFrames]
  | cons f fs ih =>
      intro s
      simp only [decodeFrames]
      cases hw : (writeStep ((materializeStep d s f mo).1) f).2 with
      | true => simpa [hw] using List.Sublist.cons₂ f (ih _)
      | false => simpa [hw] using List.Sublist.cons f (ih _)

lemma decodeFrames_active_offers_all (d : Nat) (mo : MatOutcome) :
    ∀ (frames : List Frame) (s : WorkerState),
      s.recording = true → s.outputContainer.isSome = true →
      s.outputStream.isSome = true →
      (decodeFrames d mo s frames).2.1 = (decodeFrames d mo s frames).2.2 := by
  intro frames
  induction frames with
  | nil => intro s _ _ _; rfl
  | cons f fs ih =>
      intro s hr hc he
      obtain ⟨c, hc'⟩ := Option.isSome_iff_exists.mp hc
      obtain ⟨e, he'⟩ := Option.isSome_iff_exists.mp he
      have hm : (materializeStep d s f mo).1 = s := by
        simp [materializeStep, hc']
      have key : (writeStep s f).2 = true ∧
          (writeStep s f).1.recording = true ∧
          (writeStep s f).1.outputContainer.isSome = true ∧
          (writeStep s f).1.outputStream.isSome = true := by
        simp [writeStep, hr, hc', he']
      simp only [decodeFrames, hm, key.1, if_true]
      rw [ih { (writeStep s f).1 with lastQImage := some f }
        key.2.1 key.2.2.1 key.2.2.2]
      simp

/-- C8: in one pass of the decode loop, the frames offered to the
recording session form an order-preserving sublist of the frames
delivered to the frame sink (the recording path never reorders), and
whenever the recording session is active with fully materialised
resources, every frame delivered to the sink is offered to the session,
1:1 in the same decode order. -/
theorem playback_and_recording_order (d : Nat) (mo : MatOutcome)
    (s : WorkerState) (frames : List Frame) :
    List.Sublist (decodeFrames d mo s frames).2.1
      (decodeFrames d mo s frames).2.2 ∧
    (s.recording = true → s.outputContainer.isSome = true →
     s.outputStream.isSome = true →
     (decodeFrames d mo s frames).2.1 = (decodeFrames d mo s frames).2.2) :=
  ⟨decodeFrames_offers_sublist d mo frames s,
   fun hr hc he => decodeFrames_active_offers_all d mo frames s hr hc he⟩

/-- Witness for C8 at a concrete active recording state and one frame. -/
theorem playback_and_recording_order_witness :
    (decodeFrames 1 MatOutcome.ok activeWorker [{ pts := some 0 }]).2.1 =
    (decodeFrames 1 MatOutcome.ok activeWorker [{ pts := some 0 }]).2.2 :=
  (playback_and_recording_order 1 MatOutcome.ok activeWorker
    [{ pts := some 0 }]).2 rfl rfl rfl

end RtspViewer
